import Mathlib

/-!
Verification of the `cli_parser` log-filter engine.

The repository's `src/main.rs` defines a textual grammar for building
typed filter predicates from CLI tokens (`explode_args`, `parse_or_err`,
`parse_string_filter`, `parse_eq_filter`, `parse_ord_filter`, and the
`TryFrom<FilterArgs>` conversion), and instantiates the predicate types
`EqFilter`, `OrdFilter`, `StringFilter` of the external `rs_filter` crate
for a log record's four filterable fields.  This file embeds those
functions and proves the specification's claims about them.
-/

namespace CliParser

/-- The error kinds of the construction grammar.  The Rust source encodes
errors as bare strings; the three constructors record which program point
produced the error (the length check in `explode_args`, the fall-through
arm of an operator `match`, or `parse_or_err`), and `FilterError.message`
renders each exactly as the corresponding `format!` call does. -/
inductive FilterError where
  | formatError (raw : String)
  | unknownOperatorError (raw : String)
  | operandParseError (operand : String)
  deriving DecidableEq, Repr

/-- The string each error renders to, mirroring the `format!` calls in the
source: `"Invalid filter {raw}"` for both the length-check failure and the
unrecognized-operator failure, `"Invalid value for filter: {operand}"` for
an operand that fails to parse. -/
def FilterError.message : FilterError → String
  | .formatError raw => "Invalid filter " ++ raw
  | .unknownOperatorError raw => "Invalid filter " ++ raw
  | .operandParseError operand => "Invalid value for filter: " ++ operand

/-- `splitn(2, ' ')` on a character list: `Option.none` when there is no
space, otherwise the characters before the first space and everything
after it. -/
def splitFirstSpace : List Char → Option (List Char × List Char)
  | [] => Option.none
  | c :: cs =>
    if c = ' ' then Option.some ([], cs)
    else
      match splitFirstSpace cs with
      | Option.some (pre, post) => Option.some (c :: pre, post)
      | Option.none => Option.none

/-- Rust `explode_args`: `value.splitn(2, ' ')` produces two parts
exactly when `value` contains a space; otherwise the length check fails
with `Invalid filter {value}`. -/
def explode_args (value : String) : Except FilterError (String × String) :=
  match splitFirstSpace value.data with
  | Option.some (pre, post) => Except.ok (String.mk pre, String.mk post)
  | Option.none => Except.error (FilterError.formatError value)

/-- Rust `parse_or_err`: runs the target type's textual parser (the
`FromStr` instance, passed here explicitly) and maps failure to
`Invalid value for filter: {value}`. -/
def parse_or_err {α : Type} (fromStr : String → Option α) (value : String) :
    Except FilterError α :=
  match fromStr value with
  | Option.some a => Except.ok a
  | Option.none => Except.error (FilterError.operandParseError value)

/-- The `StringFilter` variant set of the `rs_filter` crate, as the spec
records it: identity `Any`, exclusion `None`, and four match operators. -/
inductive StringFilter where
  | none
  | any
  | eq (s : String)
  | contains (s : String)
  | startsWith (s : String)
  | endsWith (s : String)
  deriving DecidableEq, Repr

/-- The `EqFilter<T>` variant set of the `rs_filter` crate. -/
inductive EqFilter (α : Type) where
  | none
  | any
  | eq (a : α)
  | neq (a : α)
  deriving DecidableEq, Repr

/-- The `OrdFilter<T>` variant set of the `rs_filter` crate. -/
inductive OrdFilter (α : Type) where
  | none
  | any
  | eq (a : α)
  | neq (a : α)
  | gt (a : α)
  | lt (a : α)
  | gte (a : α)
  | lte (a : α)
  deriving DecidableEq, Repr

/-- Rust `parse_string_filter`. -/
def parse_string_filter (value : String) : Except FilterError StringFilter :=
  if value = "none" then Except.ok StringFilter.none
  else
    match explode_args value with
    | Except.error e => Except.error e
    | Except.ok (op, operand) =>
      if op = "contains" then Except.ok (StringFilter.contains operand)
      else if op = "eq" then Except.ok (StringFilter.eq operand)
      else if op = "starts_with" then Except.ok (StringFilter.startsWith operand)
      else if op = "ends_with" then Except.ok (StringFilter.endsWith operand)
      else Except.error (FilterError.unknownOperatorError value)

/-- Rust `parse_eq_filter::<T>`, with `T`'s `FromStr` instance passed
explicitly as `fromStr`. -/
def parse_eq_filter {α : Type} (fromStr : String → Option α) (value : String) :
    Except FilterError (EqFilter α) :=
  if value = "none" then Except.ok EqFilter.none
  else
    match explode_args value with
    | Except.error e => Except.error e
    | Except.ok (op, operand) =>
      if op = "eq" then (parse_or_err fromStr operand).map EqFilter.eq
      else if op = "neq" then (parse_or_err fromStr operand).map EqFilter.neq
      else Except.error (FilterError.unknownOperatorError value)

/-- Rust `parse_ord_filter::<T>`, with `T`'s `FromStr` instance passed
explicitly as `fromStr`. -/
def parse_ord_filter {α : Type} (fromStr : String → Option α) (value : String) :
    Except FilterError (OrdFilter α) :=
  if value = "none" then Except.ok OrdFilter.none
  else
    match explode_args value with
    | Except.error e => Except.error e
    | Except.ok (op, operand) =>
      if op = "eq" then (parse_or_err fromStr operand).map OrdFilter.eq
      else if op = "neq" then (parse_or_err fromStr operand).map OrdFilter.neq
      else if op = "gt" then (parse_or_err fromStr operand).map OrdFilter.gt
      else if op = "lt" then (parse_or_err fromStr operand).map OrdFilter.lt
      else if op = "gte" then (parse_or_err fromStr operand).map OrdFilter.gte
      else if op = "lte" then (parse_or_err fromStr operand).map OrdFilter.lte
      else Except.error (FilterError.unknownOperatorError value)

/-- Reads a non-empty all-digit character list as a decimal number,
`Option.none` on any non-digit. -/
def digitsToNat (acc : Nat) : List Char → Option Nat
  | [] => Option.some acc
  | c :: cs =>
    if c.isDigit then digitsToNat (acc * 10 + (c.toNat - 48)) cs
    else Option.none

/-- Modelled from the spec: the "canonical textual parser" for the
"integer status code" field (`http::StatusCode`'s `FromStr`, external to
the repository): decimal digits forming a number in `[100, 999]`. -/
def parse_status_code (s : String) : Option Nat :=
  match s.data with
  | [] => Option.none
  | c :: cs =>
    match digitsToNat 0 (c :: cs) with
    | Option.some n => if 100 ≤ n ∧ n ≤ 999 then Option.some n else Option.none
    | Option.none => Option.none

/-- `needle.isPrefixOf` tried at every suffix of the haystack: the
substring test backing the `Contains` operator. -/
def listContainsSub : List Char → List Char → Bool
  | [], needle => needle.isEmpty
  | c :: t, needle => needle.isPrefixOf (c :: t) || listContainsSub t needle

/-- Modelled from the spec: `applyEquality` on a bare (always-present)
value — the `rs_filter` crate's equality application, external to the
repository.  `None` → false, `Any` → true, `Eq x` → `v = x`,
`Neq x` → `v ≠ x`. -/
def applyEquality {α : Type} [DecidableEq α] (v : α) : EqFilter α → Bool
  | EqFilter.none => false
  | EqFilter.any => true
  | EqFilter.eq x => decide (v = x)
  | EqFilter.neq x => decide (v ≠ x)

/-- Modelled from the spec: `applyOrder` on a bare value — the
`rs_filter` crate's ordering application, external to the repository.
`None` → false, `Any` → true, the comparison operators compare `v`
against the payload. -/
def applyOrder {α : Type} [LinearOrder α] (v : α) : OrdFilter α → Bool
  | OrdFilter.none => false
  | OrdFilter.any => true
  | OrdFilter.eq x => decide (v = x)
  | OrdFilter.neq x => decide (v ≠ x)
  | OrdFilter.gt x => decide (x < v)
  | OrdFilter.lt x => decide (v < x)
  | OrdFilter.gte x => decide (x ≤ v)
  | OrdFilter.lte x => decide (v ≤ x)

/-- Modelled from the spec: `applyString` on a bare text value — the
`rs_filter` crate's string application, external to the repository.
`None` → false, `Any` → true, `Eq` → exact match, the rest are
substring tests. -/
def applyString (v : String) : StringFilter → Bool
  | StringFilter.none => false
  | StringFilter.any => true
  | StringFilter.eq s => v == s
  | StringFilter.contains s => listContainsSub v.data s.data
  | StringFilter.startsWith s => s.data.isPrefixOf v.data
  | StringFilter.endsWith s => s.data.isSuffixOf v.data

/-- Modelled from the spec: an IPv4 address value (`std::net::IpAddr` is
external to the repository; the spec's "IP-address literal" is modelled
as the dotted-quad form). -/
structure IpAddr where
  o1 : Nat
  o2 : Nat
  o3 : Nat
  o4 : Nat
  deriving DecidableEq, Repr

/-- Splits a character list on every '.' (an empty list yields one empty
part, matching `str::split`). -/
def splitOnDot : List Char → List (List Char)
  | [] => [[]]
  | c :: cs =>
    if c = '.' then [] :: splitOnDot cs
    else
      match splitOnDot cs with
      | [] => [[c]]
      | p :: ps => (c :: p) :: ps

/-- One octet: non-empty, all digits, at most 255. -/
def parseOctet (l : List Char) : Option Nat :=
  match l with
  | [] => Option.none
  | _ :: _ =>
    match digitsToNat 0 l with
    | Option.some n => if n ≤ 255 then Option.some n else Option.none
    | Option.none => Option.none

/-- Modelled from the spec: the "canonical textual parser" for the
IP-address field (`IpAddr`'s `FromStr`, external to the repository),
restricted to the IPv4 dotted-quad literal form. -/
def parse_ip (s : String) : Option IpAddr :=
  match splitOnDot s.data with
  | [a, b, c, d] =>
    match parseOctet a, parseOctet b, parseOctet c, parseOctet d with
    | Option.some x1, Option.some x2, Option.some x3, Option.some x4 =>
      Option.some ⟨x1, x2, x3, x4⟩
    | _, _, _, _ => Option.none
  | _ => Option.none

/-- A single decimal digit, or `Option.none`. -/
def readDigit? (c : Char) : Option Nat :=
  if c.isDigit then Option.some (c.toNat - 48) else Option.none

/-- Two leading decimal digits and the rest of the input. -/
def read2 : List Char → Option (Nat × List Char)
  | a :: b :: rest =>
    match readDigit? a, readDigit? b with
    | Option.some x, Option.some y => Option.some (x * 10 + y, rest)
    | _, _ => Option.none
  | _ => Option.none

/-- Four leading decimal digits and the rest of the input. -/
def read4 : List Char → Option (Nat × List Char)
  | a :: b :: c :: d :: rest =>
    match readDigit? a, readDigit? b, readDigit? c, readDigit? d with
    | Option.some w, Option.some x, Option.some y, Option.some z =>
      Option.some (((w * 10 + x) * 10 + y) * 10 + z, rest)
    | _, _, _, _ => Option.none
  | _ => Option.none

/-- Consumes an expected leading character. -/
def expectChar (c : Char) : List Char → Option (List Char)
  | x :: rest => if x = c then Option.some rest else Option.none
  | [] => Option.none

/-- Days since 1970-01-01 of a proleptic-Gregorian civil date
(the standard era-based formula, using truncated integer division). -/
def daysFromCivil (y m d : Int) : Int :=
  let y' := if m ≤ 2 then y - 1 else y
  let era := (if 0 ≤ y' then y' else y' - 399) / 400
  let yoe := y' - era * 400
  let mp := (m + 9) % 12
  let doy := (153 * mp + 2) / 5 + d - 1
  let doe := yoe * 365 + yoe / 4 - yoe / 100 + doy
  era * 146097 + doe - 719468

/-- The trailing UTC-offset of an RFC-3339 timestamp, in seconds:
`Z`, or `+HH:MM` / `-HH:MM`, consuming the whole remaining input. -/
def readOffset : List Char → Option Int
  | ['Z'] => Option.some 0
  | c :: rest =>
    if c = '+' ∨ c = '-' then
      match read2 rest with
      | Option.some (oh, r2) =>
        match expectChar ':' r2 with
        | Option.some r3 =>
          match read2 r3 with
          | Option.some (om, r4) =>
            if r4 = [] ∧ oh ≤ 23 ∧ om ≤ 59 then
              Option.some ((if c = '+' then 1 else -1) * (Int.ofNat oh * 3600 + Int.ofNat om * 60))
            else Option.none
          | Option.none => Option.none
        | Option.none => Option.none
      | Option.none => Option.none
    else Option.none
  | [] => Option.none

/-- Modelled from the spec: the "canonical textual parser" for the
"RFC-3339 timestamp" field (`chrono`'s `DateTime<FixedOffset>` parser,
external to the repository).  Accepts
`YYYY-MM-DDTHH:MM:SS(Z|±HH:MM)` and yields the instant as seconds since
the epoch, so that the ordering of parsed values is the instant
ordering; leap seconds and fractional seconds are not modelled. -/
def parse_timestamp (s : String) : Option Int := do
  let (y, r) ← read4 s.data
  let r ← expectChar '-' r
  let (mo, r) ← read2 r
  let r ← expectChar '-' r
  let (d, r) ← read2 r
  let r ← expectChar 'T' r
  let (h, r) ← read2 r
  let r ← expectChar ':' r
  let (mi, r) ← read2 r
  let r ← expectChar ':' r
  let (se, r) ← read2 r
  let off ← readOffset r
  if 1 ≤ mo ∧ mo ≤ 12 ∧ 1 ≤ d ∧ d ≤ 31 ∧ h ≤ 23 ∧ mi ≤ 59 ∧ se ≤ 59 then
    Option.some (daysFromCivil (Int.ofNat y) (Int.ofNat mo) (Int.ofNat d) * 86400
      + Int.ofNat h * 3600 + Int.ofNat mi * 60 + Int.ofNat se - off)
  else Option.none

/-- Modelled from the spec: the four filterable read-only fields of the
structured log record (the full `CombinedLogEntry` of the external
`access_log_parser` crate has further fields the filter never reads;
the user agent is taken in its bare, always-present form). -/
structure CombinedLogEntry where
  ip : IpAddr
  status_code : Nat
  user_agent : String
  timestamp : Int
  deriving DecidableEq, Repr

/-- The `LogFilter` struct: one predicate per filterable field, in the
source's declaration order. -/
structure LogFilter where
  user_agent : StringFilter
  status_code : EqFilter Nat
  ip : EqFilter IpAddr
  timestamp : OrdFilter Int
  deriving DecidableEq, Repr

/-- The CLI argument collection: one optional raw token per field. -/
structure FilterArgs where
  status_code : Option String
  user_agent : Option String
  ip : Option String
  timestamp : Option String
  deriving DecidableEq, Repr

/-- Rust `TryFrom<FilterArgs> for LogFilter`: each absent argument
becomes `Any` via `map_or`; each present one goes through the grammar,
whose first error (in struct-literal order) aborts the conversion. -/
def LogFilter.try_from (value : FilterArgs) : Except FilterError LogFilter :=
  match Option.elim value.status_code
      (Except.ok EqFilter.any) (parse_eq_filter parse_status_code) with
  | Except.error e => Except.error e
  | Except.ok status_code =>
    match Option.elim value.user_agent
        (Except.ok StringFilter.any) parse_string_filter with
    | Except.error e => Except.error e
    | Except.ok user_agent =>
      match Option.elim value.ip
          (Except.ok EqFilter.any) (parse_eq_filter parse_ip) with
      | Except.error e => Except.error e
      | Except.ok ip =>
        match Option.elim value.timestamp
            (Except.ok OrdFilter.any) (parse_ord_filter parse_timestamp) with
        | Except.error e => Except.error e
        | Except.ok timestamp =>
          Except.ok { user_agent, status_code, ip, timestamp }

/-- Modelled from the spec: the match decision `matches(record, filter)`
(the `is_match` method generated by the external `filter_for` macro of
the `rs_filter` crate): the logical AND of the four field applications,
taken here in the struct's declaration order. -/
def CombinedLogEntry.is_match (entry : CombinedLogEntry) (f : LogFilter) : Bool :=
  applyString entry.user_agent f.user_agent &&
  applyEquality entry.status_code f.status_code &&
  applyEquality entry.ip f.ip &&
  applyOrder entry.timestamp f.timestamp

example : parse_string_filter "contains Chrome" = Except.ok (StringFilter.contains "Chrome") := by rfl
example : parse_string_filter "none" = Except.ok StringFilter.none := by rfl
example : parse_string_filter "any" = Except.error (FilterError.formatError "any") := by rfl
example : parse_ord_filter parse_status_code "gt" = Except.error (FilterError.formatError "gt") := by rfl
example : parse_eq_filter parse_status_code "eq 404" = Except.ok (EqFilter.eq 404) := by rfl
example : parse_eq_filter parse_status_code "eq x4" = Except.error (FilterError.operandParseError "x4") := by rfl
example : parse_status_code "99" = Option.none := by rfl
example : parse_status_code "" = Option.none := by rfl
example : parse_ip "193.105.7.171" = Option.some ⟨193, 105, 7, 171⟩ := by rfl
example : parse_ip "193.105.7" = Option.none := by rfl
example : (parse_timestamp "2023-02-12T14:34:20+00:00").isSome = true := by rfl
example : parse_timestamp "2023-02-12T14:34:20+00:00" = parse_timestamp "2023-02-12T15:34:20+01:00" := by rfl

/-! ### Structural lemmas about the token split -/

theorem splitFirstSpace_eq_none_iff (l : List Char) :
    splitFirstSpace l = Option.none ↔ ' ' ∉ l := by
  induction l with
  | nil => simp [splitFirstSpace]
  | cons c cs ih =>
    by_cases hc : c = ' '
    · subst hc
      simp [splitFirstSpace]
    · cases h : splitFirstSpace cs with
      | none =>
        have hcs : ' ' ∉ cs := ih.mp h
        have hc' : ¬ (' ' = c) := fun hh => hc hh.symm
        simp [splitFirstSpace, hc, h, hcs, hc']
      | some p =>
        obtain ⟨a, b⟩ := p
        have hcs : ' ' ∈ cs := by
          by_contra hn
          rw [ih.mpr hn] at h
          exact Option.noConfusion h
        simp [splitFirstSpace, hc, h, hcs]

theorem splitFirstSpace_append (a b : List Char) (ha : ' ' ∉ a) :
    splitFirstSpace (a ++ ' ' :: b) = Option.some (a, b) := by
  induction a with
  | nil => simp [splitFirstSpace]
  | cons c cs ih =>
    have hc : ¬ (c = ' ') := fun h => ha (by simp [h])
    have hcs : ' ' ∉ cs := fun h => ha (List.mem_cons_of_mem _ h)
    simp [splitFirstSpace, hc, ih hcs]

theorem explode_args_eq_error (value : String) (h : ' ' ∉ value.data) :
    explode_args value = Except.error (FilterError.formatError value) := by
  unfold explode_args
  rw [(splitFirstSpace_eq_none_iff _).mpr h]

/-- The data of `op ++ " " ++ rest` is `op`'s characters, a space, then
`rest`'s characters. -/
theorem data_append_space (op rest : String) :
    (op ++ " " ++ rest).data = op.data ++ ' ' :: rest.data := by
  simp [String.data_append]

theorem explode_args_append (op rest : String) (h : ' ' ∉ op.data) :
    explode_args (op ++ " " ++ rest) = Except.ok (op, rest) := by
  unfold explode_args
  rw [data_append_space, splitFirstSpace_append _ _ h]

/-- A token containing a space is not the literal `"none"`. -/
theorem append_space_ne_none (op rest : String) : op ++ " " ++ rest ≠ "none" := by
  intro h
  have hmem : ' ' ∈ (op ++ " " ++ rest).data := by
    rw [data_append_space]
    exact List.mem_append_right _ (List.mem_cons_self _ _)
  rw [h] at hmem
  exact absurd hmem (by decide)

theorem explode_args_eq_ok (value : String) (a b : List Char)
    (h : splitFirstSpace value.data = Option.some (a, b)) :
    explode_args value = Except.ok (String.mk a, String.mk b) := by
  unfold explode_args
  rw [h]

/-- Whether a parse result is the length-check failure of `explode_args`. -/
def isFormatError {σ : Type} : Except FilterError σ → Bool
  | Except.error (FilterError.formatError _) => true
  | _ => false

/-- Whether a parse result is the fall-through failure of an operator
`match`. -/
def isUnknownOperatorError {σ : Type} : Except FilterError σ → Bool
  | Except.error (FilterError.unknownOperatorError _) => true
  | _ => false

@[simp]
theorem isFormatError_map {σ τ : Type} (g : σ → τ) (r : Except FilterError σ) :
    isFormatError (Except.map g r) = isFormatError r := by
  cases r with
  | error e => cases e <;> rfl
  | ok v => rfl

@[simp]
theorem isUnknownOperatorError_map {σ τ : Type} (g : σ → τ) (r : Except FilterError σ) :
    isUnknownOperatorError (Except.map g r) = isUnknownOperatorError r := by
  cases r with
  | error e => cases e <;> rfl
  | ok v => rfl

@[simp]
theorem isFormatError_ok {σ : Type} (v : σ) :
    isFormatError (Except.ok v) = false := rfl

@[simp]
theorem isFormatError_error_format {σ : Type} (raw : String) :
    isFormatError (σ := σ) (Except.error (FilterError.formatError raw)) = true := rfl

@[simp]
theorem isFormatError_error_unknown {σ : Type} (raw : String) :
    isFormatError (σ := σ) (Except.error (FilterError.unknownOperatorError raw)) = false := rfl

@[simp]
theorem isFormatError_error_operand {σ : Type} (operand : String) :
    isFormatError (σ := σ) (Except.error (FilterError.operandParseError operand)) = false := rfl

@[simp]
theorem isUnknownOperatorError_ok {σ : Type} (v : σ) :
    isUnknownOperatorError (Except.ok v) = false := rfl

@[simp]
theorem isUnknownOperatorError_error_format {σ : Type} (raw : String) :
    isUnknownOperatorError (σ := σ) (Except.error (FilterError.formatError raw)) = false := rfl

@[simp]
theorem isUnknownOperatorError_error_unknown {σ : Type} (raw : String) :
    isUnknownOperatorError (σ := σ) (Except.error (FilterError.unknownOperatorError raw)) = true := rfl

@[simp]
theorem isUnknownOperatorError_error_operand {σ : Type} (operand : String) :
    isUnknownOperatorError (σ := σ) (Except.error (FilterError.operandParseError operand)) = false := rfl

@[simp]
theorem isFormatError_parse_or_err {α : Type} (p : String → Option α) (s : String) :
    isFormatError (parse_or_err p s) = false := by
  cases h : p s <;> simp [parse_or_err, h, isFormatError]

@[simp]
theorem isUnknownOperatorError_parse_or_err {α : Type} (p : String → Option α) (s : String) :
    isUnknownOperatorError (parse_or_err p s) = false := by
  cases h : p s <;> simp [parse_or_err, h, isUnknownOperatorError]

/-- `parse_string_filter` on a token with an explicit first space. -/
theorem parse_string_filter_append (op rest : String) (h : ' ' ∉ op.data) :
    parse_string_filter (op ++ " " ++ rest) =
      if op = "contains" then Except.ok (StringFilter.contains rest)
      else if op = "eq" then Except.ok (StringFilter.eq rest)
      else if op = "starts_with" then Except.ok (StringFilter.startsWith rest)
      else if op = "ends_with" then Except.ok (StringFilter.endsWith rest)
      else Except.error (FilterError.unknownOperatorError (op ++ " " ++ rest)) := by
  unfold parse_string_filter
  rw [if_neg (append_space_ne_none op rest), explode_args_append op rest h]

/-- `parse_eq_filter` on a token with an explicit first space. -/
theorem parse_eq_filter_append {α : Type} (fromStr : String → Option α)
    (op rest : String) (h : ' ' ∉ op.data) :
    parse_eq_filter fromStr (op ++ " " ++ rest) =
      if op = "eq" then (parse_or_err fromStr rest).map EqFilter.eq
      else if op = "neq" then (parse_or_err fromStr rest).map EqFilter.neq
      else Except.error (FilterError.unknownOperatorError (op ++ " " ++ rest)) := by
  unfold parse_eq_filter
  rw [if_neg (append_space_ne_none op rest), explode_args_append op rest h]

/-- `parse_ord_filter` on a token with an explicit first space. -/
theorem parse_ord_filter_append {α : Type} (fromStr : String → Option α)
    (op rest : String) (h : ' ' ∉ op.data) :
    parse_ord_filter fromStr (op ++ " " ++ rest) =
      if op = "eq" then (parse_or_err fromStr rest).map OrdFilter.eq
      else if op = "neq" then (parse_or_err fromStr rest).map OrdFilter.neq
      else if op = "gt" then (parse_or_err fromStr rest).map OrdFilter.gt
      else if op = "lt" then (parse_or_err fromStr rest).map OrdFilter.lt
      else if op = "gte" then (parse_or_err fromStr rest).map OrdFilter.gte
      else if op = "lte" then (parse_or_err fromStr rest).map OrdFilter.lte
      else Except.error (FilterError.unknownOperatorError (op ++ " " ++ rest)) := by
  unfold parse_ord_filter
  rw [if_neg (append_space_ne_none op rest), explode_args_append op rest h]

/-- The string parser yields the `explode_args` failure exactly on tokens
that are not `"none"` and contain no space. -/
theorem isFormatError_parse_string_filter (value : String) :
    isFormatError (parse_string_filter value) = true ↔
      value ≠ "none" ∧ ' ' ∉ value.data := by
  by_cases hn : value = "none"
  · simp [parse_string_filter, hn, isFormatError]
  · unfold parse_string_filter
    rw [if_neg hn]
    cases hs : splitFirstSpace value.data with
    | none =>
      have hns : ' ' ∉ value.data := (splitFirstSpace_eq_none_iff _).mp hs
      simp only [explode_args_eq_error value hns]
      simp [isFormatError, hn, hns]
    | some p =>
      obtain ⟨a, b⟩ := p
      have hmem : ' ' ∈ value.data := by
        by_contra hcon
        rw [(splitFirstSpace_eq_none_iff _).mpr hcon] at hs
        exact Option.noConfusion hs
      simp only [explode_args_eq_ok value a b hs]
      split_ifs <;> simp [hmem]

/-- The equality parser yields the `explode_args` failure exactly on
tokens that are not `"none"` and contain no space, whatever the operand
parser. -/
theorem isFormatError_parse_eq_filter {α : Type} (fromStr : String → Option α)
    (value : String) :
    isFormatError (parse_eq_filter fromStr value) = true ↔
      value ≠ "none" ∧ ' ' ∉ value.data := by
  by_cases hn : value = "none"
  · simp [parse_eq_filter, hn, isFormatError]
  · unfold parse_eq_filter
    rw [if_neg hn]
    cases hs : splitFirstSpace value.data with
    | none =>
      have hns : ' ' ∉ value.data := (splitFirstSpace_eq_none_iff _).mp hs
      simp only [explode_args_eq_error value hns]
      simp [isFormatError, hn, hns]
    | some p =>
      obtain ⟨a, b⟩ := p
      have hmem : ' ' ∈ value.data := by
        by_contra hcon
        rw [(splitFirstSpace_eq_none_iff _).mpr hcon] at hs
        exact Option.noConfusion hs
      simp only [explode_args_eq_ok value a b hs]
      split_ifs <;> simp [hmem]

/-- The ordering parser yields the `explode_args` failure exactly on
tokens that are not `"none"` and contain no space, whatever the operand
parser. -/
theorem isFormatError_parse_ord_filter {α : Type} (fromStr : String → Option α)
    (value : String) :
    isFormatError (parse_ord_filter fromStr value) = true ↔
      value ≠ "none" ∧ ' ' ∉ value.data := by
  by_cases hn : value = "none"
  · simp [parse_ord_filter, hn, isFormatError]
  · unfold parse_ord_filter
    rw [if_neg hn]
    cases hs : splitFirstSpace value.data with
    | none =>
      have hns : ' ' ∉ value.data := (splitFirstSpace_eq_none_iff _).mp hs
      simp only [explode_args_eq_error value hns]
      simp [isFormatError, hn, hns]
    | some p =>
      obtain ⟨a, b⟩ := p
      have hmem : ' ' ∈ value.data := by
        by_contra hcon
        rw [(splitFirstSpace_eq_none_iff _).mpr hcon] at hs
        exact Option.noConfusion hs
      simp only [explode_args_eq_ok value a b hs]
      split_ifs <;> simp [hmem]

/-- A failing run of the string parser is either the length-check error
or the fall-through operator error, always carrying the whole raw
token. -/
theorem parse_string_filter_error_cases (value : String) (e : FilterError)
    (h : parse_string_filter value = Except.error e) :
    e = FilterError.formatError value ∨ e = FilterError.unknownOperatorError value := by
  by_cases hn : value = "none"
  · rw [hn] at h
    exact absurd h (by simp [parse_string_filter])
  · unfold parse_string_filter at h
    rw [if_neg hn] at h
    cases hs : splitFirstSpace value.data with
    | none =>
      have hns : ' ' ∉ value.data := (splitFirstSpace_eq_none_iff _).mp hs
      simp only [explode_args_eq_error value hns] at h
      left
      exact (Except.error.inj h).symm
    | some p =>
      obtain ⟨a, b⟩ := p
      simp only [explode_args_eq_ok value a b hs] at h
      split_ifs at h
      exact Or.inr (Except.error.inj h).symm

/-- Inversion of the `TryFrom` conversion: a successful build determines
each field of the result from the corresponding argument alone. -/
theorem try_from_ok_inv (args : FilterArgs) (lf : LogFilter)
    (hok : LogFilter.try_from args = Except.ok lf) :
    Option.elim args.status_code (Except.ok EqFilter.any)
      (parse_eq_filter parse_status_code) = Except.ok lf.status_code ∧
    Option.elim args.user_agent (Except.ok StringFilter.any)
      parse_string_filter = Except.ok lf.user_agent ∧
    Option.elim args.ip (Except.ok EqFilter.any)
      (parse_eq_filter parse_ip) = Except.ok lf.ip ∧
    Option.elim args.timestamp (Except.ok OrdFilter.any)
      (parse_ord_filter parse_timestamp) = Except.ok lf.timestamp := by
  unfold LogFilter.try_from at hok
  cases e1 : Option.elim args.status_code (Except.ok EqFilter.any)
      (parse_eq_filter parse_status_code) with
  | error err =>
    simp only [e1] at hok
    exact Except.noConfusion hok
  | ok v1 =>
    simp only [e1] at hok
    cases e2 : Option.elim args.user_agent (Except.ok StringFilter.any)
        parse_string_filter with
    | error err =>
      simp only [e2] at hok
      exact Except.noConfusion hok
    | ok v2 =>
      simp only [e2] at hok
      cases e3 : Option.elim args.ip (Except.ok EqFilter.any)
          (parse_eq_filter parse_ip) with
      | error err =>
        simp only [e3] at hok
        exact Except.noConfusion hok
      | ok v3 =>
        simp only [e3] at hok
        cases e4 : Option.elim args.timestamp (Except.ok OrdFilter.any)
            (parse_ord_filter parse_timestamp) with
        | error err =>
          simp only [e4] at hok
          exact Except.noConfusion hok
        | ok v4 =>
          simp only [e4] at hok
          have hlf : (⟨v2, v1, v3, v4⟩ : LogFilter) = lf := Except.ok.inj hok
          subst hlf
          exact ⟨rfl, rfl, rfl, rfl⟩

/-! ### The specification's claims -/

/-- C1: for every parsed record and every filter, `matches(record,
filter)` is true if and only if all four field applications hold:
`applyEquality` of the record's ip against `filter.ip`, `applyEquality`
of the record's status code against `filter.statusCode`, `applyString`
of the record's user agent against `filter.userAgent`, and `applyOrder`
of the record's timestamp against `filter.timestamp` (logical AND of
the four, order immaterial). -/
theorem matches_iff_four_field_applications (entry : CombinedLogEntry) (f : LogFilter) :
    entry.is_match f = true ↔
      (applyEquality entry.ip f.ip = true ∧
       applyEquality entry.status_code f.status_code = true ∧
       applyString entry.user_agent f.user_agent = true ∧
       applyOrder entry.timestamp f.timestamp = true) := by
  simp only [CombinedLogEntry.is_match, Bool.and_eq_true]
  tauto

/-- C2: every field for which the CLI supplied no flag is assigned the
`Any` predicate (the grammar is not invoked for it), and building the
filter with all four flags absent succeeds and yields the all-`Any`
filter. -/
theorem try_from_absent_flag_is_any (args : FilterArgs) (lf : LogFilter)
    (hok : LogFilter.try_from args = Except.ok lf) :
    (args.status_code = Option.none → lf.status_code = EqFilter.any) ∧
    (args.user_agent = Option.none → lf.user_agent = StringFilter.any) ∧
    (args.ip = Option.none → lf.ip = EqFilter.any) ∧
    (args.timestamp = Option.none → lf.timestamp = OrdFilter.any) ∧
    LogFilter.try_from ⟨Option.none, Option.none, Option.none, Option.none⟩ =
      Except.ok ⟨StringFilter.any, EqFilter.any, EqFilter.any, OrdFilter.any⟩ := by
  obtain ⟨h1, h2, h3, h4⟩ := try_from_ok_inv args lf hok
  refine ⟨fun hz => ?_, fun hz => ?_, fun hz => ?_, fun hz => ?_, rfl⟩
  · rw [hz] at h1
    exact (Except.ok.inj h1).symm
  · rw [hz] at h2
    exact (Except.ok.inj h2).symm
  · rw [hz] at h3
    exact (Except.ok.inj h3).symm
  · rw [hz] at h4
    exact (Except.ok.inj h4).symm

/-- C2 witness: the all-absent argument set builds the all-`Any` filter,
whose status-code predicate is `Any`. -/
theorem try_from_absent_flag_is_any_witness :
    (⟨StringFilter.any, EqFilter.any, EqFilter.any, OrdFilter.any⟩ : LogFilter).status_code
        = EqFilter.any ∧
    LogFilter.try_from ⟨Option.none, Option.none, Option.none, Option.none⟩ =
      Except.ok ⟨StringFilter.any, EqFilter.any, EqFilter.any, OrdFilter.any⟩ :=
  ⟨(try_from_absent_flag_is_any ⟨Option.none, Option.none, Option.none, Option.none⟩
      ⟨StringFilter.any, EqFilter.any, EqFilter.any, OrdFilter.any⟩ rfl).1 rfl,
   (try_from_absent_flag_is_any ⟨Option.none, Option.none, Option.none, Option.none⟩
      ⟨StringFilter.any, EqFilter.any, EqFilter.any, OrdFilter.any⟩ rfl).2.2.2.2⟩

/-- C3: in every predicate family, the raw token `"none"` parses to the
`None` variant immediately — for the equality and ordering families this
holds for every operand parser whatsoever, so no splitting, operator
lookup or operand parsing can take place and no error is possible. -/
theorem none_token_short_circuits :
    parse_string_filter "none" = Except.ok StringFilter.none ∧
    ∀ (α : Type) (fromStr : String → Option α),
      parse_eq_filter fromStr "none" = Except.ok EqFilter.none ∧
      parse_ord_filter fromStr "none" = Except.ok OrdFilter.none :=
  ⟨rfl, fun _ _ => ⟨rfl, rfl⟩⟩

/-- C4: parsing returns the `explode_args` failure (a `FormatError`,
rendered `Invalid filter <raw>`) exactly when the token is not `"none"`
and contains no space, i.e. does not split into two parts; in
particular the single token `"gt"` yields a `FormatError` rendered
exactly `Invalid filter gt`. -/
theorem format_error_iff_no_split (value : String) :
    (isFormatError (parse_string_filter value) = true ↔
      value ≠ "none" ∧ ' ' ∉ value.data) ∧
    (∀ (α : Type) (fromStr : String → Option α),
      (isFormatError (parse_eq_filter fromStr value) = true ↔
        value ≠ "none" ∧ ' ' ∉ value.data) ∧
      (isFormatError (parse_ord_filter fromStr value) = true ↔
        value ≠ "none" ∧ ' ' ∉ value.data)) ∧
    parse_ord_filter parse_timestamp "gt" = Except.error (FilterError.formatError "gt") ∧
    FilterError.message (FilterError.formatError "gt") = "Invalid filter gt" ∧
    FilterError.message (FilterError.formatError value) = "Invalid filter " ++ value :=
  ⟨isFormatError_parse_string_filter value,
   fun _ fromStr => ⟨isFormatError_parse_eq_filter fromStr value,
     isFormatError_parse_ord_filter fromStr value⟩,
   rfl, rfl, rfl⟩

/-- C5: the recognized operator keyword sets are exactly `eq`/`neq` for
the equality family, `eq`/`neq`/`gt`/`gte`/`lt`/`lte` for the ordering
family, and `eq`/`contains`/`starts_with`/`ends_with` for the string
family: a two-part token avoids the unknown-operator rejection exactly
when its first part lies in the family's set. -/
theorem operator_keyword_sets_exact (op rest : String) (h : ' ' ∉ op.data) :
    (isUnknownOperatorError (parse_string_filter (op ++ " " ++ rest)) = false ↔
      op = "eq" ∨ op = "contains" ∨ op = "starts_with" ∨ op = "ends_with") ∧
    ∀ (α : Type) (fromStr : String → Option α),
      (isUnknownOperatorError (parse_eq_filter fromStr (op ++ " " ++ rest)) = false ↔
        op = "eq" ∨ op = "neq") ∧
      (isUnknownOperatorError (parse_ord_filter fromStr (op ++ " " ++ rest)) = false ↔
        op = "eq" ∨ op = "neq" ∨ op = "gt" ∨ op = "gte" ∨ op = "lt" ∨ op = "lte") := by
  refine ⟨?_, fun α fromStr => ⟨?_, ?_⟩⟩
  · rw [parse_string_filter_append op rest h]
    split_ifs <;> simp_all
  · rw [parse_eq_filter_append fromStr op rest h]
    split_ifs <;> simp_all
  · rw [parse_ord_filter_append fromStr op rest h]
    split_ifs <;> simp_all

/-- C5 witness: `starts_with` is accepted by the string family. -/
theorem operator_keyword_sets_exact_witness :
    ' ' ∉ ("starts_with" : String).data ∧
    (isUnknownOperatorError (parse_string_filter ("starts_with" ++ " " ++ "Moz")) = false ↔
      "starts_with" = "eq" ∨ "starts_with" = "contains" ∨
        "starts_with" = "starts_with" ∨ "starts_with" = "ends_with") :=
  ⟨by decide, (operator_keyword_sets_exact "starts_with" "Moz" (by decide)).1⟩

/-- C6: a two-part token whose first part is outside the family's
recognized set is rejected with an `UnknownOperatorError` carrying the
whole raw token, rendered `Invalid filter <raw>`. -/
theorem unknown_operator_carries_raw_token (op rest : String) (h : ' ' ∉ op.data) :
    (op ≠ "eq" → op ≠ "contains" → op ≠ "starts_with" → op ≠ "ends_with" →
      parse_string_filter (op ++ " " ++ rest) =
        Except.error (FilterError.unknownOperatorError (op ++ " " ++ rest))) ∧
    (∀ (α : Type) (fromStr : String → Option α),
      (op ≠ "eq" → op ≠ "neq" →
        parse_eq_filter fromStr (op ++ " " ++ rest) =
          Except.error (FilterError.unknownOperatorError (op ++ " " ++ rest))) ∧
      (op ≠ "eq" → op ≠ "neq" → op ≠ "gt" → op ≠ "lt" → op ≠ "gte" → op ≠ "lte" →
        parse_ord_filter fromStr (op ++ " " ++ rest) =
          Except.error (FilterError.unknownOperatorError (op ++ " " ++ rest)))) ∧
    FilterError.message (FilterError.unknownOperatorError (op ++ " " ++ rest)) =
      "Invalid filter " ++ (op ++ " " ++ rest) := by
  refine ⟨?_, fun α fromStr => ⟨?_, ?_⟩, rfl⟩
  · intro n1 n2 n3 n4
    rw [parse_string_filter_append op rest h, if_neg n2, if_neg n1, if_neg n3, if_neg n4]
  · intro n1 n2
    rw [parse_eq_filter_append fromStr op rest h, if_neg n1, if_neg n2]
  · intro n1 n2 n3 n4 n5 n6
    rw [parse_ord_filter_append fromStr op rest h, if_neg n1, if_neg n2, if_neg n3,
      if_neg n4, if_neg n5, if_neg n6]

/-- C6 witness: the unrecognized keyword `foo` is rejected with the
whole raw token `foo bar` in the error. -/
theorem unknown_operator_carries_raw_token_witness :
    ' ' ∉ ("foo" : String).data ∧
    parse_string_filter ("foo" ++ " " ++ "bar") =
      Except.error (FilterError.unknownOperatorError ("foo" ++ " " ++ "bar")) :=
  ⟨by decide, (unknown_operator_carries_raw_token "foo" "bar" (by decide)).1
    (by decide) (by decide) (by decide) (by decide)⟩

/-- C7: for the equality and ordering families, a recognized operator
keyword with an operand the target type's parser rejects produces an
`OperandParseError` rendered exactly `Invalid value for filter:
<operand>`, where the operand is the second part of the split token. -/
theorem operand_parse_error_carries_operand {α : Type} (fromStr : String → Option α)
    (op operand : String) (h : ' ' ∉ op.data) (hf : fromStr operand = Option.none) :
    (op = "eq" ∨ op = "neq" →
      parse_eq_filter fromStr (op ++ " " ++ operand) =
        Except.error (FilterError.operandParseError operand)) ∧
    (op = "eq" ∨ op = "neq" ∨ op = "gt" ∨ op = "gte" ∨ op = "lt" ∨ op = "lte" →
      parse_ord_filter fromStr (op ++ " " ++ operand) =
        Except.error (FilterError.operandParseError operand)) ∧
    FilterError.message (FilterError.operandParseError operand) =
      "Invalid value for filter: " ++ operand := by
  refine ⟨?_, ?_, rfl⟩
  · intro hop
    rw [parse_eq_filter_append fromStr op operand h]
    rcases hop with h1 | h1 <;> subst h1 <;> simp [parse_or_err, hf, Except.map]
  · intro hop
    rw [parse_ord_filter_append fromStr op operand h]
    rcases hop with h1 | h1 | h1 | h1 | h1 | h1 <;> subst h1 <;>
      simp [parse_or_err, hf, Except.map]

/-- C7 witness: `eq x4` for the status-code field fails with
`Invalid value for filter: x4`. -/
theorem operand_parse_error_carries_operand_witness :
    ' ' ∉ ("eq" : String).data ∧ parse_status_code "x4" = Option.none ∧
    parse_eq_filter parse_status_code ("eq" ++ " " ++ "x4") =
      Except.error (FilterError.operandParseError "x4") :=
  ⟨by decide, rfl,
   (operand_parse_error_carries_operand parse_status_code "eq" "x4"
      (by decide) rfl).1 (Or.inl rfl)⟩

/-- C8 counterexample: the literal token `"any"` is not valid grammar
input — the string parser rejects it with the length-check failure
(`Invalid filter any`) instead of yielding the `Any` variant. -/
theorem any_token_counterexample :
    parse_string_filter "any" = Except.error (FilterError.formatError "any") := rfl

/-- C8 amended: the literal token `"any"` is not special-cased by the
grammar: in every predicate family parsing it fails with a
`FormatError` rendered `Invalid filter any` (the `Any` predicate arises
only from an absent CLI flag). -/
theorem any_token_rejected :
    parse_string_filter "any" = Except.error (FilterError.formatError "any") ∧
    (∀ (α : Type) (fromStr : String → Option α),
      parse_eq_filter fromStr "any" = Except.error (FilterError.formatError "any") ∧
      parse_ord_filter fromStr "any" = Except.error (FilterError.formatError "any")) ∧
    FilterError.message (FilterError.formatError "any") = "Invalid filter any" :=
  ⟨rfl, fun _ _ => ⟨rfl, rfl⟩, rfl⟩

/-- C9: grammar round-trip — whenever the field type's parser reads back
the canonical rendering of `x`, the token `eq <text(x)>` parses to the
`Eq(x)` predicate in both the equality and ordering families, and
applying that predicate to `x` yields true. -/
theorem eq_roundtrip {α : Type} [DecidableEq α] [LinearOrder α]
    (fromStr : String → Option α) (text : α → String) (x : α)
    (h : fromStr (text x) = Option.some x) :
    parse_eq_filter fromStr ("eq " ++ text x) = Except.ok (EqFilter.eq x) ∧
    applyEquality x (EqFilter.eq x) = true ∧
    parse_ord_filter fromStr ("eq " ++ text x) = Except.ok (OrdFilter.eq x) ∧
    applyOrder x (OrdFilter.eq x) = true := by
  have heq : ("eq " ++ text x) = ("eq" ++ " " ++ text x) := rfl
  refine ⟨?_, by simp [applyEquality], ?_, by simp [applyOrder]⟩
  · rw [heq, parse_eq_filter_append fromStr "eq" (text x) (by decide)]
    simp [parse_or_err, h, Except.map]
  · rw [heq, parse_ord_filter_append fromStr "eq" (text x) (by decide)]
    simp [parse_or_err, h, Except.map]

/-- C9 witness: the status code 404 round-trips through `eq 404`. -/
theorem eq_roundtrip_witness :
    parse_status_code (Nat.repr 404) = Option.some 404 ∧
    parse_eq_filter parse_status_code ("eq " ++ Nat.repr 404) =
      Except.ok (EqFilter.eq 404) ∧
    applyEquality 404 (EqFilter.eq (404 : Nat)) = true :=
  ⟨rfl, (eq_roundtrip parse_status_code Nat.repr 404 rfl).1,
   (eq_roundtrip parse_status_code Nat.repr 404 rfl).2.1⟩

/-- C10: the string parser never produces an operand error — with any
recognized string operator, the operand is the whole remainder after
the first space, taken verbatim (including the empty string and text
with spaces), and the parse succeeds; its only failures are the
length-check error and the unknown-operator error. -/
theorem string_parser_operand_verbatim (op rest : String) (h : ' ' ∉ op.data) :
    (op = "eq" → parse_string_filter (op ++ " " ++ rest) =
      Except.ok (StringFilter.eq rest)) ∧
    (op = "contains" → parse_string_filter (op ++ " " ++ rest) =
      Except.ok (StringFilter.contains rest)) ∧
    (op = "starts_with" → parse_string_filter (op ++ " " ++ rest) =
      Except.ok (StringFilter.startsWith rest)) ∧
    (op = "ends_with" → parse_string_filter (op ++ " " ++ rest) =
      Except.ok (StringFilter.endsWith rest)) ∧
    (∀ (value : String) (e : FilterError),
      parse_string_filter value = Except.error e →
        e = FilterError.formatError value ∨
        e = FilterError.unknownOperatorError value) := by
  refine ⟨?_, ?_, ?_, ?_, parse_string_filter_error_cases⟩ <;>
    (intro h1; subst h1; rw [parse_string_filter_append _ rest h]; simp)

/-- C10 witness: `contains` takes the operand `a b` (which itself
contains a space) verbatim, and `eq` accepts the empty operand. -/
theorem string_parser_operand_verbatim_witness :
    ' ' ∉ ("contains" : String).data ∧
    parse_string_filter ("contains" ++ " " ++ "a b") =
      Except.ok (StringFilter.contains "a b") ∧
    parse_string_filter ("eq" ++ " " ++ "") = Except.ok (StringFilter.eq "") :=
  ⟨by decide,
   (string_parser_operand_verbatim "contains" "a b" (by decide)).2.1 rfl,
   (string_parser_operand_verbatim "eq" "" (by decide)).1 rfl⟩

end CliParser
